import Mathlib

/-!
Verification of the signal bot core (src/bot.py) against its specification.

Shallow embedding conventions:
- SQLite rows become Lean structures whose fields mirror the DDL in
  `setup_database`; `INTEGER` columns become `Int` (booleans stay 0/1 as in
  the schema), `TEXT` becomes `String`, nullable columns become `Option`,
  timestamps become abstract natural-number instants, `REAL` becomes `Rat`
  (exact arithmetic in place of floats).
- Python dict lookups that can raise `KeyError` become `Option` fields; the
  catch-all `except` of `create_binary_chart` becomes the `none` branch.
- `plt.savefig` is modelled as an update of a path-indexed file store.
- Components whose method bodies are elided from src/bot.py (the analysis
  engine, signal builder, eligibility gate and outcome-resolution job) are
  modelled from the specification; each such definition carries a doc
  comment saying so.
-/

namespace BotSpec

/-! ## Persistence store rows (from the DDL in `setup_database`) -/

/-- Row of the `users` table, mirroring the CREATE TABLE in
`setup_database` (src/bot.py lines 72-89). -/
structure UserRow where
  user_id : Int
  username : Option String
  first_name : Option String
  last_name : Option String
  risk_level : String
  preferred_pairs : String
  notification_enabled : Int
  is_premium : Int
  premium_until : Option Nat
  joined_date : Nat
  total_signals : Int
  successful_signals : Int
  last_active : Nat
  language_code : String
deriving DecidableEq

/-- Insertion of a brand-new user supplying only identity fields; every
other column takes the DDL default (`risk_level` medium, the two default
pairs, notifications on, not premium, zero counters, language en). -/
def users_insert (user_id : Int) (username first_name last_name : Option String)
    (now : Nat) : UserRow :=
  { user_id := user_id
    username := username
    first_name := first_name
    last_name := last_name
    risk_level := "medium"
    preferred_pairs := "EUR/USD,GBP/USD"
    notification_enabled := 1
    is_premium := 0
    premium_until := none
    joined_date := now
    total_signals := 0
    successful_signals := 0
    last_active := now
    language_code := "en" }

/-- Row of the `signals` table (src/bot.py lines 92-109).  The outcome
columns `success`, `actual_result`, `profit_loss` are `DEFAULT NULL`. -/
structure SignalRow where
  id : Nat
  pair : String
  direction : String
  expiry_time : Nat
  confidence : Rat
  price : Rat
  stop_loss : Option Rat
  take_profit : Option Rat
  signal_type : String
  strategy : Option String
  created_at : Nat
  success : Option Int
  actual_result : Option String
  profit_loss : Option Rat
deriving DecidableEq

/-- A freshly inserted signal row: the caller supplies the value columns,
the three outcome columns take their `DEFAULT NULL`. -/
def signals_insert (id : Nat) (pair direction : String) (expiry_time : Nat)
    (confidence price : Rat) (stop_loss take_profit : Option Rat)
    (signal_type strategy_tag : String) (created_at : Nat) : SignalRow :=
  { id := id
    pair := pair
    direction := direction
    expiry_time := expiry_time
    confidence := confidence
    price := price
    stop_loss := stop_loss
    take_profit := take_profit
    signal_type := signal_type
    strategy := some strategy_tag
    created_at := created_at
    success := none
    actual_result := none
    profit_loss := none }

/-- Row of the `user_signals` table (src/bot.py lines 112-122).  The DDL
declares no PRIMARY KEY and no UNIQUE constraint: only two foreign keys. -/
structure UserSignalRow where
  user_id : Int
  signal_id : Int
  received_at : Nat
  action_taken : String
  result_noted : Int
deriving DecidableEq

/-- SQLite INSERT into `user_signals` with the DDL defaults.  Because the
table as declared has no uniqueness constraint, the insert can never hit a
conflict: it unconditionally appends a row. -/
def user_signals_insert (rows : List UserSignalRow) (u s : Int) (now : Nat) :
    List UserSignalRow :=
  { user_id := u, signal_id := s, received_at := now,
    action_taken := "viewed", result_noted := 0 } :: rows

/-- States of the `user_signals` table reachable from the empty table
created by `CREATE TABLE IF NOT EXISTS` via inserts. -/
inductive USReachable : List UserSignalRow → Prop
  | empty : USReachable []
  | insert (rows : List UserSignalRow) (u s : Int) (now : Nat) :
      USReachable rows → USReachable (user_signals_insert rows u s now)

/-- The (user_id, signal_id) key of a delivery record. -/
def us_key (r : UserSignalRow) : Int × Int := (r.user_id, r.signal_id)

/-- The uniqueness invariant claimed by the spec: no two rows share a
(user_id, signal_id) key. -/
def unique_user_signal (rows : List UserSignalRow) : Prop :=
  (rows.map us_key).Nodup

/-- Number of rows carrying a given (user_id, signal_id) key. -/
def us_key_count (rows : List UserSignalRow) (k : Int × Int) : Nat :=
  (rows.filter fun r => us_key r = k).length

/-- Row of the `channel_subs` table (src/bot.py lines 125-133); the
`subscribed` INTEGER flag is read as a boolean. -/
structure ChannelSubRow where
  user_id : Int
  channel_username : String
  subscribed : Bool
  last_checked : Nat
deriving DecidableEq

/-! ## Analysis engine (modelled from the spec) -/

inductive Direction where
  | high
  | low
  | neutral
deriving DecidableEq

inductive AnalysisError where
  | insufficientData
deriving DecidableEq

structure AnalysisOutput where
  sma_10 : Rat
  sma_20 : Rat
  current_price : Rat
  direction : Direction
  confidence : Rat
deriving DecidableEq

/-- Simple moving average over the last `n` samples of an oldest-to-newest
price series. -/
def sma_last (n : Nat) (prices : List Rat) : Rat :=
  (prices.drop (prices.length - n)).sum / n

/-- Clamp a score into the unit interval. -/
def clamp01 (q : Rat) : Rat := min 1 (max 0 q)

/-- Modelled from the spec: the unclamped confidence score, a function of
the normalized separation between current price, sma_10 and sma_20
(section 4.1 leaves the exact weighting tunable; this concrete choice is
monotonic in the separation and deterministic, as the contract demands). -/
def raw_confidence (cp s10 s20 : Rat) : Rat :=
  10 * (|cp - s10| + |s10 - s20|) / (1 + |cp|)

/-- Modelled from the spec: the Analysis Engine (its method body is elided
from src/bot.py).  Requires at least 20 samples, else fails with
`InsufficientDataError`; computes sma_10, sma_20, the latest price, the
HIGH/LOW/NEUTRAL direction rule of section 4.1, and a confidence clamped
to the unit interval.  Pure: no side effects. -/
def analyze (prices : List Rat) : Except AnalysisError AnalysisOutput :=
  if prices.length < 20 then Except.error AnalysisError.insufficientData
  else
    let s10 := sma_last 10 prices
    let s20 := sma_last 20 prices
    let cp := prices.getLastD 0
    let dir :=
      if s20 < s10 ∧ s10 < cp then Direction.high
      else if cp < s10 ∧ s10 < s20 then Direction.low
      else Direction.neutral
    Except.ok
      { sma_10 := s10
        sma_20 := s20
        current_price := cp
        direction := dir
        confidence := clamp01 (raw_confidence cp s10 s20) }

/-! ## Signal builder (modelled from the spec) -/

def dir_string : Direction → String
  | Direction.high => "HIGH"
  | Direction.low => "LOW"
  | Direction.neutral => "NEUTRAL"

/-- Modelled from the spec: the Signal Builder (its method body is elided
from src/bot.py).  A NEUTRAL direction or a confidence below
`min_confidence` yields no signal; otherwise it builds the row that will
be inserted, with `expiry_time = now + expiry_minutes` (in seconds) and
the outcome columns at their NULL defaults. -/
def build_signal (out : AnalysisOutput) (id : Nat) (pair : String)
    (min_confidence : Rat) (expiry_minutes : Nat) (now : Nat) :
    Option SignalRow :=
  if out.direction = Direction.neutral ∨ out.confidence < min_confidence then
    none
  else
    some (signals_insert id pair (dir_string out.direction)
      (now + expiry_minutes * 60) out.confidence out.current_price
      none none "regular" "sma_crossover" now)

/-! ## Signals table state machine (insert from the DDL defaults; the
outcome-resolution job is modelled from the spec) -/

structure SigState where
  now : Nat
  signals : List SignalRow
deriving DecidableEq

/-- Modelled from the spec: the out-of-scope resolution job, which sets
the three outcome columns of a signal only after its `expiry_time` has
passed (section 3: set exactly once, after expiry). -/
def resolve_signal (st : SigState) (sid : Nat) (succ : Int) (res : String)
    (pl : Rat) : SigState :=
  { st with
    signals := st.signals.map fun s =>
      if s.id = sid ∧ s.expiry_time ≤ st.now then
        { s with success := some succ, actual_result := some res,
                 profit_loss := some pl }
      else s }

/-- One step of the signals store: time advances, a fresh signal row is
inserted with the DDL outcome defaults, or the resolution job runs. -/
inductive SigStep : SigState → SigState → Prop
  | tick (st : SigState) : SigStep st { st with now := st.now + 1 }
  | insert (st : SigState) (id : Nat) (pair direction : String)
      (expiry_time : Nat) (confidence price : Rat)
      (stop_loss take_profit : Option Rat) (signal_type strategy_tag : String) :
      SigStep st
        { st with
          signals := signals_insert id pair direction expiry_time confidence
            price stop_loss take_profit signal_type strategy_tag st.now
            :: st.signals }
  | resolve (st : SigState) (sid : Nat) (succ : Int) (res : String) (pl : Rat) :
      SigStep st (resolve_signal st sid succ res pl)

/-- Signals-store states reachable from the empty table at time 0. -/
inductive SigReachable : SigState → Prop
  | init : SigReachable { now := 0, signals := [] }
  | step (st st' : SigState) : SigReachable st → SigStep st st' → SigReachable st'

/-- Running one (pair, series) through analysis and the builder: on
`InsufficientDataError` or a no-signal outcome the store is untouched. -/
def process_pair (st : SigState) (prices : List Rat) (id : Nat) (pair : String)
    (min_confidence : Rat) (expiry_minutes : Nat) : SigState :=
  match analyze prices with
  | Except.error _ => st
  | Except.ok out =>
    match build_signal out id pair min_confidence expiry_minutes st.now with
    | none => st
    | some row => { st with signals := row :: st.signals }

/-! ## Eligibility gate (modelled from the spec) and cooldown map
(the in-memory dict `self.user_cooldown = \x7b\x7d` of src/bot.py line 47) -/

structure GateConfig where
  channel_required : Bool
  recheck_interval : Nat
  cooldown_window : Nat
deriving DecidableEq

inductive GateResult where
  | eligible
  | rejNotifications
  | deferSubscription
  | rejNotSubscribed
  | rejPremium
  | rejCooldown
  | rejPair
deriving DecidableEq

/-- The comma-separated `preferred_pairs` column read back as a list; an
empty string is an empty preference filter. -/
def pairs_of (s : String) : List String :=
  if s = "" then [] else s.splitOn ","

/-- Whether a premium grant is still active at `now`. -/
def premium_active (premium_until : Option Nat) (now : Nat) : Bool :=
  match premium_until with
  | some t => decide (now < t)
  | none => false

/-- Step 5 of the gate: the pair must be preferred, unless the user has no
preference filter at all. -/
def pair_allowed (user : UserRow) (sig : SignalRow) : GateResult :=
  if pairs_of user.preferred_pairs = [] ∨ sig.pair ∈ pairs_of user.preferred_pairs
  then GateResult.eligible
  else GateResult.rejPair

/-- Modelled from the spec: the Eligibility Gate (its method body is
elided from src/bot.py).  Section 4.4's decision sequence, short-circuiting
on the first failure: notifications on; channel subscription present, not
stale (stale defers) when required; premium tier for premium signals;
per-user cooldown against the in-memory map (user id to last-delivery
time); pair preference last. -/
def check_eligibility (cfg : GateConfig) (user : UserRow) (sub : ChannelSubRow)
    (user_cooldown : Int → Option Nat) (sig : SignalRow) (now : Nat) :
    GateResult :=
  if user.notification_enabled = 0 then GateResult.rejNotifications
  else if cfg.channel_required ∧ cfg.recheck_interval < now - sub.last_checked then
    GateResult.deferSubscription
  else if cfg.channel_required ∧ ¬ sub.subscribed then GateResult.rejNotSubscribed
  else if sig.signal_type = "premium"
      ∧ ¬ (user.is_premium ≠ 0 ∧ premium_active user.premium_until now) then
    GateResult.rejPremium
  else
    match user_cooldown user.user_id with
    | some last =>
        if now < last + cfg.cooldown_window then GateResult.rejCooldown
        else pair_allowed user sig
    | none => pair_allowed user sig

/-- Modelled from the spec: the Delivery Dispatcher's cooldown update,
writing the delivery timestamp into the in-memory map under the user id. -/
def record_delivery (m : Int → Option Nat) (u : Int) (t : Nat) :
    Int → Option Nat :=
  fun v => if v = u then some t else m v

/-! ## Chart renderer (`create_binary_chart`, src/bot.py lines 162-197) -/

/-- The fields of the `signal` dict that `create_binary_chart` reads;
`Option` models a possibly missing key (a `KeyError` lands in the
catch-all branch).  `market_type` is read with `.get` and a default, so it
never fails. -/
structure SignalDict where
  prices : Option (List Rat)
  sma_10 : Option Rat
  sma_20 : Option Rat
  current_price : Option Rat
  market_type : Option String
  direction : Option String
  pair : Option String
  expiry_minutes : Option Nat
  confidence : Option Rat
deriving DecidableEq

/-- Left-pad to four digits, for the fractional part of a 4-decimal
format. -/
def pad4 (k : Int) : String :=
  if k < 10 then "000" ++ toString k
  else if k < 100 then "00" ++ toString k
  else if k < 1000 then "0" ++ toString k
  else toString k

/-- Fixed-point rendering with four decimals (the `:.4f` of the axhline
labels), with round-half-up in place of the float rounding. -/
def fmt4 (q : Rat) : String :=
  let n : Int := (q * 10000 + 1 / 2).floor
  toString (n / 10000) ++ "." ++ pad4 (n % 10000)

/-- Fixed-point rendering with one decimal (the `:.1f` of the title),
with round-half-up in place of the float rounding. -/
def fmt1 (q : Rat) : String :=
  let n : Int := (q * 10 + 1 / 2).floor
  toString (n / 10) ++ "." ++ toString (n % 10)

/-- The `"HIGH (CALL)" if signal[direction] == HIGH else "LOW (PUT)"`
selection. -/
def direction_text (d : String) : String :=
  if d = "HIGH" then "HIGH (CALL)" else "LOW (PUT)"

/-- The `"OTC" if market_type == otc else "Forex"` label (computed by the
source but not used in the title). -/
def market_label (market_type : String) : String :=
  if market_type = "otc" then "OTC" else "Forex"

/-- The chart title f-string: BINARY: pair - direction | expiry min |
confidence as a percentage with one decimal. -/
def chart_title (pair dir : String) (expiry_minutes : Nat) (confidence : Rat) :
    String :=
  "BINARY: " ++ pair ++ " - " ++ direction_text dir ++ " | "
    ++ toString expiry_minutes ++ "min | Conf: "
    ++ fmt1 (confidence * 100) ++ "%"

/-- One drawing primitive of the figure: the price `plt.plot` line or an
`axhline` with its color, linestyle and label. -/
inductive ChartElement where
  | priceLine (xs : List Nat) (ys : List Rat) (label color : String)
  | hline (y : Rat) (color linestyle label : String)
deriving DecidableEq

/-- The figure assembled by the try-block: its drawing primitives in
source order, the title, and the legend/grid flags. -/
structure Chart where
  elements : List ChartElement
  title : String
  legend : Bool
  grid : Bool
deriving DecidableEq

/-- The try-block of `create_binary_chart` up to `savefig`: every dict
access must succeed, and then the figure holds the price line, the two
SMA axhlines, the current-price axhline and the title.  A missing key
gives `none` (the `KeyError` caught by the except branch). -/
def render_chart (signal : SignalDict) : Option Chart :=
  match signal.prices, signal.sma_10, signal.sma_20, signal.current_price,
      signal.direction, signal.pair, signal.expiry_minutes, signal.confidence with
  | some prices, some s10, some s20, some cp, some dir, some pair, some em,
      some conf =>
    some
      { elements :=
          [ChartElement.priceLine (List.range prices.length) prices "Price" "blue",
           ChartElement.hline s10 "orange" "--" ("SMA 10: " ++ fmt4 s10),
           ChartElement.hline s20 "red" "--" ("SMA 20: " ++ fmt4 s20),
           ChartElement.hline cp "green" "-" ("Current: " ++ fmt4 cp)]
        title := chart_title pair dir em conf
        legend := true
        grid := true }
  | _, _, _, _, _, _, _, _ => none

/-- The filename computed from the integer wall-clock second:
/tmp/binary_chart_t.png. -/
def chartFilename (t : Nat) : String :=
  "/tmp/binary_chart_" ++ toString t ++ ".png"

/-- The fallback path returned by the except branch. -/
def chartErrorPath : String := "/tmp/chart_error.png"

/-- The filesystem as a map from paths to saved figures. -/
def FileStore : Type := String → Option Chart

/-- `plt.savefig`: writing a figure at a path replaces whatever was there. -/
def fs_save (fs : FileStore) (path : String) (c : Chart) : FileStore :=
  fun p => if p = path then some c else fs p

/-- `create_binary_chart` (src/bot.py lines 162-197): renders the figure,
saves it under the time-stamped name and returns that path; on any
failure inside the try-block (a missing dict key, or a failing save,
modelled by `saveOk`) the except branch returns the fixed error path and
nothing is saved.  `t` is `int(time.time())` at save time. -/
def create_binary_chart (signal : SignalDict) (saveOk : Bool) (t : Nat)
    (fs : FileStore) : String × FileStore :=
  match render_chart signal with
  | some c =>
      if saveOk then (chartFilename t, fs_save fs (chartFilename t) c)
      else (chartErrorPath, fs)
  | none => (chartErrorPath, fs)

/-! ## Claims -/

/-- Claim C1: `create_binary_chart` always returns a filesystem path — the
time-stamped chart path on success, and on any rendering failure (missing
dict key or failing save) the fixed fallback error path, with nothing
written; the function is total, so no exception escapes its boundary. -/
theorem C1_create_binary_chart_total_fallback (signal : SignalDict)
    (saveOk : Bool) (t : Nat) (fs : FileStore) :
    ((create_binary_chart signal saveOk t fs).1 = chartFilename t
      ∨ (create_binary_chart signal saveOk t fs).1 = chartErrorPath)
    ∧ (render_chart signal = none →
        create_binary_chart signal saveOk t fs = (chartErrorPath, fs))
    ∧ (saveOk = false →
        create_binary_chart signal saveOk t fs = (chartErrorPath, fs)) := by
  unfold create_binary_chart
  cases h : render_chart signal <;> cases saveOk <;> simp

/-- Witness for C1 at a signal dict missing every key. -/
theorem C1_witness :
    (create_binary_chart
        ⟨none, none, none, none, none, none, none, none, none⟩ false 0
        (fun _ => none)).1 = chartFilename 0
    ∨ (create_binary_chart
        ⟨none, none, none, none, none, none, none, none, none⟩ false 0
        (fun _ => none)).1 = chartErrorPath :=
  (C1_create_binary_chart_total_fallback
    ⟨none, none, none, none, none, none, none, none, none⟩ false 0
    (fun _ => none)).1

/-- Claim C2, as stated, is false on the code: the `user_signals` DDL has
no uniqueness constraint, so a state holding two rows with the same
(user_id, signal_id) pair is reachable by two plain inserts. -/
theorem C2_counterexample :
    USReachable (user_signals_insert (user_signals_insert [] 1 1 0) 1 1 5)
    ∧ ¬ unique_user_signal
        (user_signals_insert (user_signals_insert [] 1 1 0) 1 1 5) := by
  constructor
  · exact USReachable.insert _ 1 1 5 (USReachable.insert _ 1 1 0 USReachable.empty)
  · unfold unique_user_signal
    decide

/-- Claim C2 amended: the schema declares no PRIMARY KEY or UNIQUE on
(user_id, signal_id), so an insert never conflicts: it always appends, and
the number of rows with any given (user_id, signal_id) key grows by one —
duplicates are representable and reachable. -/
theorem C2_no_uniqueness_enforced (rows : List UserSignalRow) (u s : Int)
    (now : Nat) (h : USReachable rows) :
    USReachable (user_signals_insert rows u s now)
    ∧ us_key_count (user_signals_insert rows u s now) (u, s)
        = us_key_count rows (u, s) + 1 := by
  refine ⟨USReachable.insert rows u s now h, ?_⟩
  simp [us_key_count, user_signals_insert, us_key, List.filter_cons]

/-- Witness for the amended C2 at the empty table. -/
theorem C2_witness :
    USReachable (user_signals_insert [] 2 3 7)
    ∧ us_key_count (user_signals_insert [] 2 3 7) (2, 3)
        = us_key_count [] (2, 3) + 1 :=
  C2_no_uniqueness_enforced [] 2 3 7 USReachable.empty

/-- Claim C3: after a delivery to a user is recorded at time T in the
in-memory cooldown map, every eligibility check for that user at any time
strictly before T + cooldown_window is not ELIGIBLE — whatever candidate
signal is evaluated — and it is specifically the cooldown rejection
whenever the earlier short-circuit steps (notifications, subscription,
premium) pass. -/
theorem C3_cooldown_window_blocks (cfg : GateConfig) (user : UserRow)
    (sub : ChannelSubRow) (m : Int → Option Nat) (sig : SignalRow)
    (T now : Nat) (h : now < T + cfg.cooldown_window) :
    check_eligibility cfg user sub (record_delivery m user.user_id T) sig now
        ≠ GateResult.eligible
    ∧ (user.notification_enabled ≠ 0 →
       ¬ (cfg.channel_required ∧ cfg.recheck_interval < now - sub.last_checked) →
       ¬ (cfg.channel_required ∧ ¬ sub.subscribed) →
       ¬ (sig.signal_type = "premium"
           ∧ ¬ (user.is_premium ≠ 0 ∧ premium_active user.premium_until now)) →
       check_eligibility cfg user sub (record_delivery m user.user_id T) sig now
         = GateResult.rejCooldown) := by
  have hm : record_delivery m user.user_id T user.user_id = some T := by
    simp [record_delivery]
  constructor
  · simp only [check_eligibility, hm]
    split_ifs <;> simp_all
  · intro h1 h2 h3 h4
    simp only [check_eligibility, hm]
    rw [if_neg h1, if_neg h2, if_neg h3, if_neg h4, if_pos h]

/-- Witness for C3: a fresh default user delivered to at T = 0 is rejected
10 time units later under a 300-unit window. -/
theorem C3_witness :
    check_eligibility ⟨false, 60, 300⟩ (users_insert 1 none none none 0)
        ⟨1, "chan", true, 0⟩
        (record_delivery (fun _ => none) (users_insert 1 none none none 0).user_id 0)
        (signals_insert 1 "EUR/USD" "HIGH" 300 (8/10) 1 none none "regular"
          "sma_crossover" 0) 10
      ≠ GateResult.eligible :=
  (C3_cooldown_window_blocks ⟨false, 60, 300⟩ (users_insert 1 none none none 0)
    ⟨1, "chan", true, 0⟩ (fun _ => none)
    (signals_insert 1 "EUR/USD" "HIGH" 300 (8/10) 1 none none "regular"
      "sma_crossover" 0) 0 10 (by decide)).1

/-- Claim C4: on a price series shorter than 20 samples the analysis
engine fails with InsufficientDataError, and running the pair through the
analysis-then-build pipeline leaves the signals store untouched: no
features are produced and no Signal row is written. -/
theorem C4_insufficient_data (prices : List Rat) (st : SigState) (id : Nat)
    (pair : String) (min_confidence : Rat) (expiry_minutes : Nat)
    (h : prices.length < 20) :
    analyze prices = Except.error AnalysisError.insufficientData
    ∧ process_pair st prices id pair min_confidence expiry_minutes = st := by
  have ha : analyze prices = Except.error AnalysisError.insufficientData := by
    unfold analyze
    rw [if_pos h]
  refine ⟨ha, ?_⟩
  unfold process_pair
  rw [ha]

/-- Witness for C4: the 15-point series of the spec scenario. -/
theorem C4_witness :
    analyze (List.replicate 15 (1 : Rat))
        = Except.error AnalysisError.insufficientData
    ∧ process_pair ⟨0, []⟩ (List.replicate 15 (1 : Rat)) 1 "EUR/USD" (7/10) 5
        = ⟨0, []⟩ :=
  C4_insufficient_data (List.replicate 15 (1 : Rat)) ⟨0, []⟩ 1 "EUR/USD"
    (7/10) 5 (by decide)

/-- Claim C5: on any series of at least 20 samples the analysis engine
succeeds, identical input series give identical output (determinism), and
the computed confidence lies in the closed unit interval. -/
theorem C5_deterministic_bounded (p1 p2 : List Rat) (h20 : 20 ≤ p1.length)
    (heq : p1 = p2) :
    analyze p1 = analyze p2
    ∧ ∃ out, analyze p1 = Except.ok out
        ∧ 0 ≤ out.confidence ∧ out.confidence ≤ 1 := by
  subst heq
  refine ⟨rfl, ?_⟩
  unfold analyze
  rw [if_neg (Nat.not_lt.mpr h20)]
  refine ⟨_, rfl, ?_, ?_⟩
  · exact le_min (by norm_num) (le_max_left 0 _)
  · exact min_le_left 1 _

/-- Witness for C5 on a constant 20-point series. -/
theorem C5_witness :
    analyze (List.replicate 20 (1 : Rat)) = analyze (List.replicate 20 (1 : Rat))
    ∧ ∃ out, analyze (List.replicate 20 (1 : Rat)) = Except.ok out
        ∧ 0 ≤ out.confidence ∧ out.confidence ≤ 1 :=
  C5_deterministic_bounded (List.replicate 20 (1 : Rat))
    (List.replicate 20 (1 : Rat)) (by decide) rfl

/-- Claim C6: the signal builder yields no row when the direction is
NEUTRAL or the confidence is below min_confidence, and any row it does
yield carries the analysis confidence — hence at least min_confidence —
and a non-NEUTRAL direction. -/
theorem C6_min_confidence_gate (out : AnalysisOutput) (id : Nat)
    (pair : String) (min_confidence : Rat) (expiry_minutes now : Nat) :
    ((out.direction = Direction.neutral ∨ out.confidence < min_confidence) →
        build_signal out id pair min_confidence expiry_minutes now = none)
    ∧ (out.direction ≠ Direction.neutral → min_confidence ≤ out.confidence →
        ∃ s, build_signal out id pair min_confidence expiry_minutes now = some s
          ∧ s.confidence = out.confidence ∧ min_confidence ≤ s.confidence
          ∧ s.direction ≠ "NEUTRAL") := by
  constructor
  · intro h
    unfold build_signal
    rw [if_pos h]
  · intro hd hc
    unfold build_signal
    rw [if_neg (not_or.mpr ⟨hd, not_lt.mpr hc⟩)]
    refine ⟨_, rfl, rfl, hc, ?_⟩
    cases hdir : out.direction <;> simp_all [dir_string, signals_insert]

/-- Witness for C6: a HIGH analysis at confidence 0.8 against threshold
0.7 yields a persisted row meeting the threshold. -/
theorem C6_witness :
    ∃ s, build_signal ⟨1, 1, 1, Direction.high, 8/10⟩ 1 "EUR/USD" (7/10) 5 0
        = some s
      ∧ s.confidence = (8 : Rat)/10 ∧ (7 : Rat)/10 ≤ s.confidence
      ∧ s.direction ≠ "NEUTRAL" :=
  (C6_min_confidence_gate ⟨1, 1, 1, Direction.high, 8/10⟩ 1 "EUR/USD" (7/10)
    5 0).2 (by decide) (by norm_num)

/-- Claim C7: in every reachable signals-store state, a signal whose
expiry_time has not yet passed has all three outcome columns null; in
particular every freshly inserted row has them null, matching the DDL
NULL defaults. -/
theorem C7_outcomes_null_before_expiry (st : SigState) (h : SigReachable st) :
    (∀ s ∈ st.signals, st.now < s.expiry_time →
      s.success = none ∧ s.actual_result = none ∧ s.profit_loss = none)
    ∧ ∀ (id : Nat) (pair direction : String) (expiry_time : Nat)
        (confidence price : Rat) (stop_loss take_profit : Option Rat)
        (signal_type strategy_tag : String) (created_at : Nat),
        (signals_insert id pair direction expiry_time confidence price
          stop_loss take_profit signal_type strategy_tag created_at).success = none
        ∧ (signals_insert id pair direction expiry_time confidence price
            stop_loss take_profit signal_type strategy_tag created_at).actual_result = none
        ∧ (signals_insert id pair direction expiry_time confidence price
            stop_loss take_profit signal_type strategy_tag created_at).profit_loss = none := by
  constructor
  · induction h with
    | init =>
      intro s hs
      simp at hs
    | step st st' hr hstep ih =>
      intro s hs hlt
      cases hstep with
      | tick =>
        exact ih s hs (Nat.lt_of_succ_lt hlt)
      | insert id pair direction expiry_time confidence price sl tp
          stype strat =>
        rcases List.mem_cons.mp hs with rfl | hmem
        · exact ⟨rfl, rfl, rfl⟩
        · exact ih s hmem hlt
      | resolve sid succ res pl =>
        rcases List.mem_map.mp hs with ⟨s0, hs0, rfl⟩
        by_cases hc : s0.id = sid ∧ s0.expiry_time ≤ st.now
        · simp only [if_pos hc] at hlt
          exact absurd (lt_of_lt_of_le hlt hc.2) (lt_irrefl _)
        · simp only [if_neg hc] at hlt ⊢
          exact ih s0 hs0 hlt
  · intro id pair direction expiry_time confidence price sl tp stype strat
      created_at
    exact ⟨rfl, rfl, rfl⟩

/-- Witness for C7: one insert from the initial state produces an
unexpired signal whose outcome columns are null. -/
theorem C7_witness :
    (signals_insert 1 "EUR/USD" "HIGH" 300 (8/10) 1 none none "regular"
        "sma_crossover" 0).success = none
    ∧ (signals_insert 1 "EUR/USD" "HIGH" 300 (8/10) 1 none none "regular"
        "sma_crossover" 0).actual_result = none
    ∧ (signals_insert 1 "EUR/USD" "HIGH" 300 (8/10) 1 none none "regular"
        "sma_crossover" 0).profit_loss = none :=
  (C7_outcomes_null_before_expiry
    { now := 0,
      signals := [signals_insert 1 "EUR/USD" "HIGH" 300 (8/10) 1 none none
        "regular" "sma_crossover" 0] }
    (SigReachable.step _ _ SigReachable.init
      (SigStep.insert { now := 0, signals := [] } 1 "EUR/USD" "HIGH" 300
        (8/10) 1 none none "regular" "sma_crossover"))).1
    (signals_insert 1 "EUR/USD" "HIGH" 300 (8/10) 1 none none "regular"
      "sma_crossover" 0)
    (by simp) (by decide)

/-- Claim C8: whenever the try-block of `create_binary_chart` succeeds,
the rendered figure contains the price line, the sma_10 and sma_20
reference lines, the current-price marker, and its title is the
`chart_title` string encoding the pair, the direction, the expiry and the
confidence as a percentage. -/
theorem C8_chart_contents (signal : SignalDict) (c : Chart)
    (h : render_chart signal = some c) :
    (∃ ys, signal.prices = some ys
      ∧ ChartElement.priceLine (List.range ys.length) ys "Price" "blue"
          ∈ c.elements)
    ∧ (∃ y, signal.sma_10 = some y
      ∧ ChartElement.hline y "orange" "--" ("SMA 10: " ++ fmt4 y) ∈ c.elements)
    ∧ (∃ y, signal.sma_20 = some y
      ∧ ChartElement.hline y "red" "--" ("SMA 20: " ++ fmt4 y) ∈ c.elements)
    ∧ (∃ y, signal.current_price = some y
      ∧ ChartElement.hline y "green" "-" ("Current: " ++ fmt4 y) ∈ c.elements)
    ∧ (∃ pair dir em conf, signal.pair = some pair ∧ signal.direction = some dir
        ∧ signal.expiry_minutes = some em ∧ signal.confidence = some conf
        ∧ c.title = chart_title pair dir em conf) := by
  unfold render_chart at h
  split at h
  next prices s10 s20 cp dir pair em conf hp h10 h20 hcp hdir hpair hem hconf =>
    injection h with h
    subst h
    refine ⟨⟨prices, hp, by simp⟩, ⟨s10, h10, by simp⟩, ⟨s20, h20, by simp⟩,
      ⟨cp, hcp, by simp⟩, ⟨pair, dir, em, conf, hpair, hdir, hem, hconf, rfl⟩⟩
  next =>
    exact absurd h (by simp)

/-- Witness for C8 on a fully populated two-point signal dict. -/
theorem C8_witness :
    ∃ ys, (⟨some [1, 2], some 1, some 2, some (3/2), some "forex",
        some "HIGH", some "EUR/USD", some 5, some (1/2)⟩ : SignalDict).prices
        = some ys
      ∧ ChartElement.priceLine (List.range ys.length) ys "Price" "blue"
          ∈ ({ elements :=
                [ChartElement.priceLine (List.range 2) [1, 2] "Price" "blue",
                 ChartElement.hline 1 "orange" "--" ("SMA 10: " ++ fmt4 1),
                 ChartElement.hline 2 "red" "--" ("SMA 20: " ++ fmt4 2),
                 ChartElement.hline (3/2) "green" "-" ("Current: " ++ fmt4 (3/2))],
               title := chart_title "EUR/USD" "HIGH" 5 (1/2),
               legend := true, grid := true } : Chart).elements :=
  (C8_chart_contents
    ⟨some [1, 2], some 1, some 2, some (3/2), some "forex", some "HIGH",
      some "EUR/USD", some 5, some (1/2)⟩
    { elements :=
        [ChartElement.priceLine (List.range 2) [1, 2] "Price" "blue",
         ChartElement.hline 1 "orange" "--" ("SMA 10: " ++ fmt4 1),
         ChartElement.hline 2 "red" "--" ("SMA 20: " ++ fmt4 2),
         ChartElement.hline (3/2) "green" "-" ("Current: " ++ fmt4 (3/2))],
      title := chart_title "EUR/USD" "HIGH" 5 (1/2),
      legend := true, grid := true } rfl).1

/-- Claim C9: a user row created on first interaction carries the DDL
defaults: risk_level medium, the two default preferred pairs (a non-empty
filter), notifications enabled, not premium with no premium expiry, zero
signal counters, and language code en. -/
theorem C9_new_user_defaults (user_id : Int)
    (username first_name last_name : Option String) (now : Nat) :
    (users_insert user_id username first_name last_name now).risk_level
        = "medium"
    ∧ (users_insert user_id username first_name last_name now).preferred_pairs
        = "EUR/USD,GBP/USD"
    ∧ (users_insert user_id username first_name last_name now).preferred_pairs
        ≠ ""
    ∧ (users_insert user_id username first_name last_name now).notification_enabled
        = 1
    ∧ (users_insert user_id username first_name last_name now).notification_enabled
        ≠ 0
    ∧ (users_insert user_id username first_name last_name now).is_premium = 0
    ∧ (users_insert user_id username first_name last_name now).premium_until
        = none
    ∧ (users_insert user_id username first_name last_name now).total_signals = 0
    ∧ (users_insert user_id username first_name last_name now).successful_signals
        = 0
    ∧ (users_insert user_id username first_name last_name now).language_code
        = "en" :=
  ⟨rfl, rfl, by simp [users_insert], rfl, by simp [users_insert], rfl, rfl,
    rfl, rfl, rfl⟩

/-- Claim C10: the successful-path artifact name is `chartFilename t`, a
function of the save-time integer second alone, so two signals rendered
within the same second are saved under the same path and the second save
overwrites the first figure in the file store. -/
theorem C10_same_second_same_path (s1 s2 : SignalDict) (c1 c2 : Chart)
    (t : Nat) (fs : FileStore) (h1 : render_chart s1 = some c1)
    (h2 : render_chart s2 = some c2) :
    (create_binary_chart s1 true t fs).1 = chartFilename t
    ∧ (create_binary_chart s2 true t (create_binary_chart s1 true t fs).2).1
        = chartFilename t
    ∧ (create_binary_chart s2 true t (create_binary_chart s1 true t fs).2).2
        (chartFilename t) = some c2 := by
  have e1 : create_binary_chart s1 true t fs
      = (chartFilename t, fs_save fs (chartFilename t) c1) := by
    unfold create_binary_chart
    rw [h1]
    rfl
  have e2 : ∀ g : FileStore, create_binary_chart s2 true t g
      = (chartFilename t, fs_save g (chartFilename t) c2) := by
    intro g
    unfold create_binary_chart
    rw [h2]
    rfl
  refine ⟨by rw [e1], by rw [e1, e2], ?_⟩
  rw [e1, e2]
  simp [fs_save]

/-- Witness for C10: a HIGH and a LOW signal rendered in the same second
42 collide on one path and the LOW chart survives. -/
theorem C10_witness :
    (create_binary_chart
      ⟨some [2, 1], some 2, some 1, some (5/4), some "otc", some "LOW",
        some "EUR/USD", some 5, some (1/4)⟩ true 42
      (create_binary_chart
        ⟨some [1, 2], some 1, some 2, some (3/2), some "forex", some "HIGH",
          some "EUR/USD", some 5, some (1/2)⟩ true 42 (fun _ => none)).2).2
      (chartFilename 42)
      = some
        { elements :=
            [ChartElement.priceLine (List.range 2) [2, 1] "Price" "blue",
             ChartElement.hline 2 "orange" "--" ("SMA 10: " ++ fmt4 2),
             ChartElement.hline 1 "red" "--" ("SMA 20: " ++ fmt4 1),
             ChartElement.hline (5/4) "green" "-" ("Current: " ++ fmt4 (5/4))],
          title := chart_title "EUR/USD" "LOW" 5 (1/4),
          legend := true, grid := true } :=
  (C10_same_second_same_path
    ⟨some [1, 2], some 1, some 2, some (3/2), some "forex", some "HIGH",
      some "EUR/USD", some 5, some (1/2)⟩
    ⟨some [2, 1], some 2, some 1, some (5/4), some "otc", some "LOW",
      some "EUR/USD", some 5, some (1/4)⟩
    { elements :=
        [ChartElement.priceLine (List.range 2) [1, 2] "Price" "blue",
         ChartElement.hline 1 "orange" "--" ("SMA 10: " ++ fmt4 1),
         ChartElement.hline 2 "red" "--" ("SMA 20: " ++ fmt4 2),
         ChartElement.hline (3/2) "green" "-" ("Current: " ++ fmt4 (3/2))],
      title := chart_title "EUR/USD" "HIGH" 5 (1/2),
      legend := true, grid := true }
    { elements :=
        [ChartElement.priceLine (List.range 2) [2, 1] "Price" "blue",
         ChartElement.hline 2 "orange" "--" ("SMA 10: " ++ fmt4 2),
         ChartElement.hline 1 "red" "--" ("SMA 20: " ++ fmt4 1),
         ChartElement.hline (5/4) "green" "-" ("Current: " ++ fmt4 (5/4))],
      title := chart_title "EUR/USD" "LOW" 5 (1/4),
      legend := true, grid := true }
    42 (fun _ => none) rfl rfl).2.2

end BotSpec
